import Mathlib

/-!
Formal model of the real-time messaging and call-signaling coordinator of the
Tele-Doctor repository (src/backend/socket/handlers.js,
src/backend/models/Conversation.js, src/backend/services/notificationService.js).

Shallow embedding: each socket event handler becomes a pure function from the
coordinator state (the `activeUsers` and `activeCalls` maps of
setupSocketHandlers) and the event payload to the successor state together with
the list of outbound emissions the handler performs.
-/

/-- A string-keyed finite map, modelling a JavaScript `Map`:
`set` overwrites the binding for a key, `get` returns the current binding,
`del` removes it, `has` tests presence. -/
structure SMap (α : Type) where
  entries : List (String × α)
deriving DecidableEq, Repr

namespace SMap

def getList {α : Type} : List (String × α) → String → Option α
  | [], _ => none
  | (k0, v) :: m, k => if k = k0 then some v else getList m k

def delList {α : Type} : List (String × α) → String → List (String × α)
  | [], _ => []
  | (k0, v) :: m, k => if k0 = k then delList m k else (k0, v) :: delList m k

def get {α : Type} (m : SMap α) (k : String) : Option α := getList m.entries k

def del {α : Type} (m : SMap α) (k : String) : SMap α := ⟨delList m.entries k⟩

def set {α : Type} (m : SMap α) (k : String) (v : α) : SMap α :=
  ⟨(k, v) :: delList m.entries k⟩

def has {α : Type} (m : SMap α) (k : String) : Bool := (m.get k).isSome

def empty {α : Type} : SMap α := ⟨[]⟩

theorem getList_delList {α : Type} (l : List (String × α)) (k k' : String) :
    getList (delList l k) k' = if k' = k then none else getList l k' := by
  induction l with
  | nil => simp [delList, getList]
  | cons p m ih =>
    obtain ⟨k0, v⟩ := p
    simp only [delList]
    by_cases h0 : k0 = k
    · subst h0
      rw [if_pos rfl, ih]
      by_cases h1 : k' = k0
      · simp [h1]
      · simp [getList, h1]
    · rw [if_neg h0]
      by_cases h1 : k' = k0
      · subst h1
        have hk : ¬ k' = k := fun h => h0 (h ▸ rfl)
        simp [getList, if_neg hk]
      · simp [getList, h1, ih]

theorem get_del {α : Type} (m : SMap α) (k k' : String) :
    (m.del k).get k' = if k' = k then none else m.get k' := by
  simp [get, del, getList_delList]

theorem get_set {α : Type} (m : SMap α) (k : String) (v : α) (k' : String) :
    (m.set k v).get k' = if k' = k then some v else m.get k' := by
  simp only [get, set, getList]
  by_cases h : k' = k
  · simp [h]
  · simp [h, getList_delList]

theorem get_empty {α : Type} (k : String) : (empty (α := α)).get k = none := rfl

theorem get_del2 {α : Type} (m : SMap α) (a b k : String) :
    ((m.del a).del b).get k = if k = a ∨ k = b then none else m.get k := by
  rw [get_del, get_del]
  by_cases h1 : k = b
  · simp [h1]
  · by_cases h2 : k = a <;> simp [h1, h2]

end SMap

/-- The call descriptor stored in `activeCalls` (the `callData` object built by
the initiate-video-call handler, handlers.js lines 191-198). -/
structure CallData where
  appointmentId : String
  caller : String
  recipient : String
  status : String
  callerSocket : String
  recipientSocket : String
deriving DecidableEq, Repr

/-- An `activeUsers` entry (handlers.js lines 39-43): socket id plus the
denormalised profile snapshot and presence status. -/
structure UserEntry where
  socketId : String
  user : String
  status : String
deriving DecidableEq, Repr

/-- A persisted message row (src/backend/models/Message.js fields as populated
by the send-message handler, handlers.js lines 82-93; `createdAt` is the
schema timestamp). -/
structure Message where
  id : Nat
  conversation : Nat
  sender : String
  recipient : String
  content : String
  messageType : String
  fileUrl : String
  fileName : String
  fileSize : Nat
  createdAt : Nat
deriving DecidableEq, Repr

/-- Where an outbound emission is addressed:
`self` is `socket.emit` (the connection handling the event),
`sock sid` is `io.to(socketId).emit`,
`room r` is `io.to(room).emit` (everyone in the room),
`roomOthers r` is `socket.to(room).emit` (room minus the handling socket),
`broadcastOthers` is `socket.broadcast.emit`. -/
inductive Target where
  | self
  | sock (socketId : String)
  | room (name : String)
  | roomOthers (name : String)
  | broadcastOthers
deriving DecidableEq, Repr

/-- An observable outbound action of a handler: an event emission with a
key/value payload, a `new-message` emission carrying the full message record,
or a hand-off to the external `createNotification` collaborator. -/
inductive Out where
  | emit (target : Target) (event : String) (fields : List (String × String))
  | emitMsg (target : Target) (event : String) (msg : Message)
  | createNotif (recipient sender ntype : String)
deriving DecidableEq, Repr

/-- The coordinator's in-memory state: the two maps created at the top of
`setupSocketHandlers` (handlers.js lines 9-10). -/
structure SrvState where
  activeUsers : SMap UserEntry
  activeCalls : SMap CallData
deriving DecidableEq, Repr

/-- Connection registration (handlers.js lines 35-52): store the active user
and broadcast `user-online` to every other connection.  The personal-room join
has no effect on the modelled state. -/
def connectHandler (s : SrvState) (userId socketId user : String) :
    SrvState × List Out :=
  ({ s with activeUsers := s.activeUsers.set userId ⟨socketId, user, "online"⟩ },
   [Out.emit Target.broadcastOthers "user-online" [("userId", userId), ("user", user)]])

/-- The initiate-video-call handler (handlers.js lines 176-228). -/
def initiateVideoCall (s : SrvState)
    (userId socketId appointmentId toId callerName callerRole : String) :
    SrvState × List Out :=
  match s.activeUsers.get toId with
  | none => (s, [Out.emit Target.self "user-offline" [("message", "User is not online")]])
  | some recipientSocket =>
    if s.activeCalls.has userId || s.activeCalls.has toId then
      (s, [Out.emit Target.self "user-busy" [("message", "User is busy")]])
    else
      let callData : CallData :=
        ⟨appointmentId, userId, toId, "calling", socketId, recipientSocket.socketId⟩
      ({ s with activeCalls := (s.activeCalls.set userId callData).set toId callData },
       [Out.emit (Target.sock recipientSocket.socketId) "incoming-video-call"
          [("appointmentId", appointmentId), ("from", userId),
           ("callerName", callerName), ("callerRole", callerRole)],
        Out.createNotif toId userId "video_call_request"])

/-- The accept-call handler (handlers.js lines 230-257).  The source mutates the
shared `callData` object's status in place and then writes it back under both
`callerId` and the accepter's id; this is modelled by the two `set` calls with
the updated descriptor.  Note the emission block is guarded only by the caller
having an active-users entry, not by the descriptor existing. -/
def acceptCall (s : SrvState) (userId appointmentId callerId : String) :
    SrvState × List Out :=
  let s1 :=
    match s.activeCalls.get callerId with
    | some callData =>
      let cd := { callData with status := "accepted" }
      { s with activeCalls := (s.activeCalls.set callerId cd).set userId cd }
    | none => s
  match s.activeUsers.get callerId with
  | some callerSocket =>
    (s1, [Out.emit (Target.sock callerSocket.socketId) "call-accepted"
            [("appointmentId", appointmentId), ("recipientId", userId)],
          Out.emit (Target.sock callerSocket.socketId) "start-webrtc-call"
            [("appointmentId", appointmentId)]])
  | none => (s1, [])

/-- The decline-call handler (handlers.js lines 260-272): unconditional removal
of the entries for `callerId` and the declining user. -/
def declineCall (s : SrvState) (userId appointmentId callerId : String) :
    SrvState × List Out :=
  let s1 := { s with activeCalls := (s.activeCalls.del callerId).del userId }
  match s.activeUsers.get callerId with
  | some callerSocket =>
    (s1, [Out.emit (Target.sock callerSocket.socketId) "call-declined"
            [("appointmentId", appointmentId)]])
  | none => (s1, [])

/-- The end-call handler (handlers.js lines 274-294).  Everything is guarded by
the ending user having a registry entry. -/
def endCallHandler (s : SrvState) (userId appointmentId : String) :
    SrvState × List Out :=
  match s.activeCalls.get userId with
  | none => (s, [])
  | some userCall =>
    let otherUserId := if userCall.caller = userId then userCall.recipient else userCall.caller
    let s1 := { s with activeCalls := (s.activeCalls.del userId).del otherUserId }
    let toOther :=
      match s.activeUsers.get otherUserId with
      | some otherUserSocket =>
        [Out.emit (Target.sock otherUserSocket.socketId) "call-ended"
           [("appointmentId", appointmentId)]]
      | none => []
    (s1, toOther ++
      [Out.emit (Target.roomOthers ("appointment-" ++ appointmentId)) "call-ended"
         [("appointmentId", appointmentId)]])

/-- The disconnect handler (handlers.js lines 326-352): the active-users entry
is removed first, then any active call of the disconnecting user is torn down
with a `call-ended` carrying a disconnect reason, then `user-offline` is
broadcast. -/
def disconnectHandler (s : SrvState) (userId : String) : SrvState × List Out :=
  let users1 := s.activeUsers.del userId
  let offlineOut := Out.emit Target.broadcastOthers "user-offline" [("userId", userId)]
  match s.activeCalls.get userId with
  | none => ({ activeUsers := users1, activeCalls := s.activeCalls }, [offlineOut])
  | some userCall =>
    let otherUserId := if userCall.caller = userId then userCall.recipient else userCall.caller
    let calls1 := (s.activeCalls.del userId).del otherUserId
    let toOther :=
      match users1.get otherUserId with
      | some otherUserSocket =>
        [Out.emit (Target.sock otherUserSocket.socketId) "call-ended"
           [("appointmentId", userCall.appointmentId), ("reason", "User disconnected")]]
      | none => []
    ({ activeUsers := users1, activeCalls := calls1 }, toOther ++ [offlineOut])

/-- The inbound events that touch the Session Directory or the Call Registry. -/
inductive Ev where
  | connect (userId socketId user : String)
  | initiate (userId socketId appointmentId toId callerName callerRole : String)
  | accept (userId appointmentId callerId : String)
  | decline (userId appointmentId callerId : String)
  | endCall (userId appointmentId : String)
  | disconnect (userId : String)
deriving DecidableEq, Repr

def stepEv (s : SrvState) : Ev → SrvState × List Out
  | .connect u sid prof => connectHandler s u sid prof
  | .initiate u sid appt toId cn cr => initiateVideoCall s u sid appt toId cn cr
  | .accept u appt cid => acceptCall s u appt cid
  | .decline u appt cid => declineCall s u appt cid
  | .endCall u appt => endCallHandler s u appt
  | .disconnect u => disconnectHandler s u

def initialState : SrvState := ⟨SMap.empty, SMap.empty⟩

/-- States reachable from the empty coordinator state under arbitrary
(client-controlled) event payloads. -/
inductive Reach : SrvState → Prop where
  | init : Reach initialState
  | step (s : SrvState) (e : Ev) : Reach s → Reach (stepEv s e).1

/-- The counterpart id named by a call descriptor, exactly as computed by the
end-call and disconnect handlers. -/
def counterpart (userId : String) (cd : CallData) : String :=
  if cd.caller = userId then cd.recipient else cd.caller

/-- The Call Registry consistency property of the spec: every indexed user is a
participant of its descriptor and both participants are indexed by the very
same descriptor. -/
def callsConsistent (R : SMap CallData) : Prop :=
  ∀ u cd, R.get u = some cd →
    (u = cd.caller ∨ u = cd.recipient) ∧
    R.get cd.caller = some cd ∧ R.get cd.recipient = some cd

/-- An event is well-matched when accept-call and decline-call name the actual
counterpart of the acting user's own call (decline may also fire when neither
named party has an entry — the idempotent case). -/
def matchedEv (s : SrvState) : Ev → Prop
  | .accept u _ cid => ∀ cd, s.activeCalls.get cid = some cd → u = counterpart cid cd
  | .decline u _ cid =>
      (s.activeCalls.get u = none ∧ s.activeCalls.get cid = none) ∨
      (∃ cd, s.activeCalls.get u = some cd ∧ cid = counterpart u cd)
  | _ => True

/-- States reachable from the empty coordinator state using only well-matched
accept/decline events. -/
inductive ReachM : SrvState → Prop where
  | init : ReachM initialState
  | step (s : SrvState) (e : Ev) : ReachM s → matchedEv s e → ReachM (stepEv s e).1

theorem callsConsistent_ext (R R' : SMap CallData) (h : ∀ k, R'.get k = R.get k)
    (hI : callsConsistent R) : callsConsistent R' := by
  intro u cd hu
  rw [h] at hu
  obtain ⟨h1, h2, h3⟩ := hI u cd hu
  exact ⟨h1, by rw [h]; exact h2, by rw [h]; exact h3⟩

theorem counterpart_parts (x : String) (cd : CallData) :
    counterpart x cd = cd.caller ∨ counterpart x cd = cd.recipient := by
  unfold counterpart
  by_cases h : cd.caller = x
  · rw [if_pos h]; exact Or.inr rfl
  · rw [if_neg h]; exact Or.inl rfl

theorem counterpart_get (R : SMap CallData) (hI : callsConsistent R) (x : String)
    (cd : CallData) (hx : R.get x = some cd) : R.get (counterpart x cd) = some cd := by
  obtain ⟨-, hc, hr⟩ := hI x cd hx
  unfold counterpart
  by_cases h : cd.caller = x
  · rw [if_pos h]; exact hr
  · rw [if_neg h]; exact hc

theorem counterpart_cover (x : String) (cd : CallData)
    (hxp : x = cd.caller ∨ x = cd.recipient) (w : String)
    (hw : w = cd.caller ∨ w = cd.recipient) : w = x ∨ w = counterpart x cd := by
  unfold counterpart
  by_cases h : cd.caller = x
  · rcases hw with rfl | rfl
    · exact Or.inl h
    · right; rw [if_pos h]
  · have hx2 : x = cd.recipient := by
      rcases hxp with h1 | h1
      · exact absurd h1.symm h
      · exact h1
    rcases hw with rfl | rfl
    · right; rw [if_neg h]
    · exact Or.inl hx2.symm

theorem outside_untouched (R : SMap CallData) (hI : callsConsistent R) (x : String)
    (cd : CallData) (hx : R.get x = some cd) (u : String) (d : CallData)
    (hu : R.get u = some d) (hmem : ¬ (u = x ∨ u = counterpart x cd)) :
    ¬ (d.caller = x ∨ d.caller = counterpart x cd) ∧
    ¬ (d.recipient = x ∨ d.recipient = counterpart x cd) := by
  obtain ⟨hxp, -, -⟩ := hI x cd hx
  obtain ⟨hup, hdc, hdr⟩ := hI u d hu
  have key : ∀ w, (w = x ∨ w = counterpart x cd) → R.get w = some cd := by
    rintro w (rfl | rfl)
    · exact hx
    · exact counterpart_get R hI x cd hx
  constructor
  · intro h
    have h1 : R.get d.caller = some cd := key d.caller h
    rw [hdc] at h1
    have hdcd : d = cd := Option.some.inj h1
    rw [hdcd] at hup
    exact hmem (counterpart_cover x cd hxp u hup)
  · intro h
    have h1 : R.get d.recipient = some cd := key d.recipient h
    rw [hdr] at h1
    have hdcd : d = cd := Option.some.inj h1
    rw [hdcd] at hup
    exact hmem (counterpart_cover x cd hxp u hup)

theorem callsConsistent_del_pair (R : SMap CallData) (x : String) (cd : CallData)
    (hI : callsConsistent R) (hx : R.get x = some cd) :
    callsConsistent ((R.del x).del (counterpart x cd)) := by
  intro u d hu
  rw [SMap.get_del2] at hu
  by_cases hmem : u = x ∨ u = counterpart x cd
  · rw [if_pos hmem] at hu; exact Option.noConfusion hu
  · rw [if_neg hmem] at hu
    obtain ⟨hup, hdc, hdr⟩ := hI u d hu
    obtain ⟨hnc, hnr⟩ := outside_untouched R hI x cd hx u d hu hmem
    refine ⟨hup, ?_, ?_⟩
    · rw [SMap.get_del2, if_neg hnc]; exact hdc
    · rw [SMap.get_del2, if_neg hnr]; exact hdr

theorem callsConsistent_set_pair (R : SMap CallData) (cd : CallData)
    (hI : callsConsistent R) (hcFree : R.get cd.caller = none)
    (hrFree : R.get cd.recipient = none) :
    callsConsistent ((R.set cd.caller cd).set cd.recipient cd) := by
  have hgc : ((R.set cd.caller cd).set cd.recipient cd).get cd.caller = some cd := by
    rw [SMap.get_set]
    by_cases h : cd.caller = cd.recipient
    · rw [if_pos h]
    · rw [if_neg h, SMap.get_set, if_pos rfl]
  have hgr : ((R.set cd.caller cd).set cd.recipient cd).get cd.recipient = some cd := by
    rw [SMap.get_set, if_pos rfl]
  intro u d hu
  rw [SMap.get_set, SMap.get_set] at hu
  by_cases h1 : u = cd.recipient
  · rw [if_pos h1] at hu
    obtain rfl : cd = d := Option.some.inj hu
    exact ⟨Or.inr h1, hgc, hgr⟩
  · rw [if_neg h1] at hu
    by_cases h2 : u = cd.caller
    · rw [if_pos h2] at hu
      obtain rfl : cd = d := Option.some.inj hu
      exact ⟨Or.inl h2, hgc, hgr⟩
    · rw [if_neg h2] at hu
      obtain ⟨hup, hdc, hdr⟩ := hI u d hu
      have a1 : ¬ d.caller = cd.recipient := fun h => by rw [h, hrFree] at hdc; exact Option.noConfusion hdc
      have a2 : ¬ d.caller = cd.caller := fun h => by rw [h, hcFree] at hdc; exact Option.noConfusion hdc
      have a3 : ¬ d.recipient = cd.recipient := fun h => by rw [h, hrFree] at hdr; exact Option.noConfusion hdr
      have a4 : ¬ d.recipient = cd.caller := fun h => by rw [h, hcFree] at hdr; exact Option.noConfusion hdr
      refine ⟨hup, ?_, ?_⟩
      · rw [SMap.get_set, if_neg a1, SMap.get_set, if_neg a2]; exact hdc
      · rw [SMap.get_set, if_neg a3, SMap.get_set, if_neg a4]; exact hdr

theorem callsConsistent_accept (R : SMap CallData) (cid : String) (cd : CallData)
    (hI : callsConsistent R) (h : R.get cid = some cd) :
    callsConsistent ((R.set cid { cd with status := "accepted" }).set
      (counterpart cid cd) { cd with status := "accepted" }) := by
  obtain ⟨hcp, hc, hr⟩ := hI cid cd h
  have e1 : (CallData.caller { cd with status := "accepted" }) = cd.caller := rfl
  have e2 : (CallData.recipient { cd with status := "accepted" }) = cd.recipient := rfl
  have hget : ∀ w, (w = cd.caller ∨ w = cd.recipient) →
      ((R.set cid { cd with status := "accepted" }).set (counterpart cid cd)
        { cd with status := "accepted" }).get w = some { cd with status := "accepted" } := by
    intro w hw
    rcases counterpart_cover cid cd hcp w hw with rfl | rfl
    · rw [SMap.get_set]
      by_cases hh : w = counterpart w cd
      · rw [if_pos hh]
      · rw [if_neg hh, SMap.get_set, if_pos rfl]
    · rw [SMap.get_set, if_pos rfl]
  intro u d hu
  rw [SMap.get_set, SMap.get_set] at hu
  by_cases h1 : u = counterpart cid cd
  · rw [if_pos h1] at hu
    obtain rfl : { cd with status := "accepted" } = d := Option.some.inj hu
    refine ⟨?_, ?_, ?_⟩
    · rcases counterpart_parts cid cd with hp | hp
      · exact Or.inl (by rw [e1]; exact h1.trans hp)
      · exact Or.inr (by rw [e2]; exact h1.trans hp)
    · rw [e1]; exact hget cd.caller (Or.inl rfl)
    · rw [e2]; exact hget cd.recipient (Or.inr rfl)
  · rw [if_neg h1] at hu
    by_cases h2 : u = cid
    · rw [if_pos h2] at hu
      obtain rfl : { cd with status := "accepted" } = d := Option.some.inj hu
      refine ⟨?_, ?_, ?_⟩
      · rcases hcp with hp | hp
        · exact Or.inl (by rw [e1]; exact h2.trans hp)
        · exact Or.inr (by rw [e2]; exact h2.trans hp)
      · rw [e1]; exact hget cd.caller (Or.inl rfl)
      · rw [e2]; exact hget cd.recipient (Or.inr rfl)
    · rw [if_neg h2] at hu
      obtain ⟨hup, hdc, hdr⟩ := hI u d hu
      have hmem : ¬ (u = cid ∨ u = counterpart cid cd) := by
        rintro (hh | hh)
        · exact h2 hh
        · exact h1 hh
      obtain ⟨hnc, hnr⟩ := outside_untouched R hI cid cd h u d hu hmem
      refine ⟨hup, ?_, ?_⟩
      · rw [SMap.get_set, if_neg (fun hh => hnc (Or.inr hh)),
          SMap.get_set, if_neg (fun hh => hnc (Or.inl hh))]
        exact hdc
      · rw [SMap.get_set, if_neg (fun hh => hnr (Or.inr hh)),
          SMap.get_set, if_neg (fun hh => hnr (Or.inl hh))]
        exact hdr

theorem acceptCall_fst (s : SrvState) (u appt cid : String) :
    (acceptCall s u appt cid).1 =
      match s.activeCalls.get cid with
      | some cd =>
        { s with activeCalls :=
            ((s.activeCalls.set cid { cd with status := "accepted" }).set u
              { cd with status := "accepted" }) }
      | none => s := by
  unfold acceptCall
  cases s.activeCalls.get cid <;> cases s.activeUsers.get cid <;> rfl

theorem declineCall_fst (s : SrvState) (u appt cid : String) :
    (declineCall s u appt cid).1 =
      { s with activeCalls := (s.activeCalls.del cid).del u } := by
  unfold declineCall
  cases s.activeUsers.get cid <;> rfl

theorem endCallHandler_fst (s : SrvState) (u appt : String) :
    (endCallHandler s u appt).1 =
      match s.activeCalls.get u with
      | none => s
      | some cd => { s with activeCalls := (s.activeCalls.del u).del (counterpart u cd) } := by
  unfold endCallHandler counterpart
  cases s.activeCalls.get u with
  | none => rfl
  | some cd => cases s.activeUsers.get (if cd.caller = u then cd.recipient else cd.caller) <;> rfl

theorem disconnectHandler_fst (s : SrvState) (u : String) :
    (disconnectHandler s u).1 =
      { activeUsers := s.activeUsers.del u,
        activeCalls :=
          match s.activeCalls.get u with
          | none => s.activeCalls
          | some cd => (s.activeCalls.del u).del (counterpart u cd) } := by
  unfold disconnectHandler counterpart
  cases s.activeCalls.get u with
  | none => rfl
  | some cd =>
    cases (s.activeUsers.del u).get (if cd.caller = u then cd.recipient else cd.caller) <;> rfl

theorem stepEv_preserves_matched (s : SrvState) (e : Ev)
    (hI : callsConsistent s.activeCalls) (hm : matchedEv s e) :
    callsConsistent (stepEv s e).1.activeCalls := by
  cases e with
  | connect u sid prof => exact hI
  | initiate u sid appt toId cn cr =>
    show callsConsistent (initiateVideoCall s u sid appt toId cn cr).1.activeCalls
    unfold initiateVideoCall
    cases hrs : s.activeUsers.get toId with
    | none => exact hI
    | some rs =>
      by_cases hbusy : (s.activeCalls.has u || s.activeCalls.has toId) = true
      · simp only [hbusy, if_true]
        exact hI
      · simp only [hbusy, if_false, Bool.false_eq_true]
        have hfree : s.activeCalls.get u = none ∧ s.activeCalls.get toId = none := by
          rw [Bool.or_eq_true] at hbusy
          push_neg at hbusy
          constructor
          · have := hbusy.1
            unfold SMap.has at this
            exact Option.not_isSome_iff_eq_none.mp (by simpa using this)
          · have := hbusy.2
            unfold SMap.has at this
            exact Option.not_isSome_iff_eq_none.mp (by simpa using this)
        exact callsConsistent_set_pair s.activeCalls
          ⟨appt, u, toId, "calling", sid, rs.socketId⟩ hI hfree.1 hfree.2
  | accept u appt cid =>
    show callsConsistent (acceptCall s u appt cid).1.activeCalls
    rw [acceptCall_fst]
    cases hcd : s.activeCalls.get cid with
    | none => exact hI
    | some cd =>
      have hu : u = counterpart cid cd := hm cd hcd
      show callsConsistent ((s.activeCalls.set cid { cd with status := "accepted" }).set u
        { cd with status := "accepted" })
      rw [hu]
      exact callsConsistent_accept s.activeCalls cid cd hI hcd
  | decline u appt cid =>
    show callsConsistent (declineCall s u appt cid).1.activeCalls
    rw [declineCall_fst]
    rcases hm with ⟨h1, h2⟩ | ⟨cd, h1, h2⟩
    · refine callsConsistent_ext _ _ (fun k => ?_) hI
      rw [SMap.get_del2]
      by_cases h : k = cid ∨ k = u
      · rw [if_pos h]
        rcases h with rfl | rfl
        · exact h2.symm
        · exact h1.symm
      · rw [if_neg h]
    · have base := callsConsistent_del_pair s.activeCalls u cd hI h1
      rw [h2]
      refine callsConsistent_ext _ _ (fun k => ?_) base
      rw [SMap.get_del2, SMap.get_del2]
      exact if_congr or_comm rfl rfl
  | endCall u appt =>
    show callsConsistent (endCallHandler s u appt).1.activeCalls
    rw [endCallHandler_fst]
    cases hcd : s.activeCalls.get u with
    | none => exact hI
    | some cd => exact callsConsistent_del_pair s.activeCalls u cd hI hcd
  | disconnect u =>
    show callsConsistent (disconnectHandler s u).1.activeCalls
    rw [disconnectHandler_fst]
    cases hcd : s.activeCalls.get u with
    | none => exact hI
    | some cd => exact callsConsistent_del_pair s.activeCalls u cd hI hcd

/-- C1 (amended): for every state reachable by initiate, accept, decline, end and
disconnect-triggered end in which accept-call and decline-call events name the
actual counterpart of the acting user's own call, whenever a user id has a Call
Registry entry the counterpart named in that descriptor has an entry too, both
entries are the identical descriptor, and each user id is indexed by at most one
descriptor at a time.  (With arbitrary event payloads the invariant can be
violated; see the counterexample.) -/
theorem c1_call_registry_invariant (s : SrvState) (h : ReachM s) :
    (∀ u cd, s.activeCalls.get u = some cd →
      (u = cd.caller ∨ u = cd.recipient) ∧
      s.activeCalls.get cd.caller = some cd ∧ s.activeCalls.get cd.recipient = some cd) ∧
    (∀ u cd cd', s.activeCalls.get u = some cd → s.activeCalls.get u = some cd' →
      cd = cd') := by
  have key : callsConsistent s.activeCalls := by
    induction h with
    | init => intro u cd hu; exact Option.noConfusion hu
    | step s e hs hm ih => exact stepEv_preserves_matched s e ih hm
  refine ⟨key, ?_⟩
  intro u cd cd' h1 h2
  rw [h1] at h2
  exact Option.some.inj h2

def c1WitnessState : SrvState :=
  (stepEv (stepEv (stepEv initialState (Ev.connect "alice" "sa" "Alice")).1
      (Ev.connect "bob" "sb" "Bob")).1
    (Ev.initiate "alice" "sa" "appt1" "bob" "Alice" "doctor")).1

theorem c1_call_registry_invariant_witness :
    (∀ u cd, c1WitnessState.activeCalls.get u = some cd →
      (u = cd.caller ∨ u = cd.recipient) ∧
      c1WitnessState.activeCalls.get cd.caller = some cd ∧
      c1WitnessState.activeCalls.get cd.recipient = some cd) ∧
    (∀ u cd cd', c1WitnessState.activeCalls.get u = some cd →
      c1WitnessState.activeCalls.get u = some cd' → cd = cd') :=
  c1_call_registry_invariant c1WitnessState
    (ReachM.step _ _ (ReachM.step _ _ (ReachM.step _ _ ReachM.init trivial) trivial) trivial)

/-- C1 counterexample: the claim as stated fails on the code.  After
initiate(alice→bob), a decline-call event from bob naming an unrelated
callerId "carol" removes only bob's entry, leaving alice indexed by a
descriptor whose counterpart bob has no entry. -/
theorem c1_counterexample :
    ¬ (∀ s : SrvState, Reach s →
        ∀ u cd, s.activeCalls.get u = some cd →
          (u = cd.caller ∨ u = cd.recipient) ∧
          s.activeCalls.get cd.caller = some cd ∧
          s.activeCalls.get cd.recipient = some cd) := by
  intro hclaim
  have r1 : Reach (stepEv initialState (Ev.connect "alice" "sa" "Alice")).1 :=
    Reach.step _ _ Reach.init
  have r2 := Reach.step _ (Ev.connect "bob" "sb" "Bob") r1
  have r3 := Reach.step _ (Ev.initiate "alice" "sa" "appt1" "bob" "Alice" "doctor") r2
  have r4 := Reach.step _ (Ev.decline "bob" "appt1" "carol") r3
  have hbad := hclaim _ r4 "alice"
    ⟨"appt1", "alice", "bob", "calling", "sa", "sb"⟩ (by decide)
  exact absurd hbad.2.2 (by decide)

/-- C2: initiate(caller→callee).  If the callee has no active session, a
user-offline event goes to the caller only and the state is unchanged; if
either party already has a registry entry, a user-busy event goes to the caller
only and the state (in particular any earlier descriptor) is unchanged; only
when both preconditions hold is a descriptor created and indexed under both
ids. -/
theorem c2_initiate_guards (s : SrvState) (u sid appt toId cn cr : String) :
    (s.activeUsers.get toId = none →
      initiateVideoCall s u sid appt toId cn cr =
        (s, [Out.emit Target.self "user-offline" [("message", "User is not online")]])) ∧
    (∀ rs, s.activeUsers.get toId = some rs →
      (s.activeCalls.has u || s.activeCalls.has toId) = true →
      initiateVideoCall s u sid appt toId cn cr =
        (s, [Out.emit Target.self "user-busy" [("message", "User is busy")]])) ∧
    (∀ rs, s.activeUsers.get toId = some rs →
      (s.activeCalls.has u || s.activeCalls.has toId) = false →
      initiateVideoCall s u sid appt toId cn cr =
        ({ s with activeCalls :=
            ((s.activeCalls.set u ⟨appt, u, toId, "calling", sid, rs.socketId⟩).set toId
              ⟨appt, u, toId, "calling", sid, rs.socketId⟩) },
         [Out.emit (Target.sock rs.socketId) "incoming-video-call"
            [("appointmentId", appt), ("from", u), ("callerName", cn), ("callerRole", cr)],
          Out.createNotif toId u "video_call_request"])) := by
  refine ⟨?_, ?_, ?_⟩
  · intro h
    simp [initiateVideoCall, h]
  · intro rs h hbusy
    simp [initiateVideoCall, h, hbusy]
  · intro rs h hbusy
    simp [initiateVideoCall, h, hbusy]

theorem c2_initiate_guards_witness :
    initiateVideoCall initialState "alice" "sa" "appt1" "bob" "Alice" "doctor" =
      (initialState,
       [Out.emit Target.self "user-offline" [("message", "User is not online")]]) :=
  (c2_initiate_guards initialState "alice" "sa" "appt1" "bob" "Alice" "doctor").1 rfl

def c3State : SrvState :=
  ⟨SMap.empty.set "alice" ⟨"sa", "Alice", "online"⟩, SMap.empty⟩

/-- C3 counterexample: the claim as stated fails on the code.  With no
descriptor under callerId but the caller online, accept-call still emits
call-accepted and start-webrtc-call to the caller's connection, so the
operation is not a complete no-op. -/
theorem c3_counterexample :
    ¬ (∀ (s : SrvState) (u appt cid : String), s.activeCalls.get cid = none →
        acceptCall s u appt cid = (s, [])) := by
  intro h
  have := h c3State "bob" "appt1" "alice" rfl
  exact absurd this (by decide)

/-- C3 (amended): accept(accepter, callerId).  If no descriptor exists under
callerId the registry is unchanged, but the call-accepted and
start-webrtc-call events are nevertheless emitted to the connection registered
for callerId whenever callerId has an active session (and only then); if a
descriptor exists, the accepted descriptor is stored under both the callerId
and the accepter index entries, with the same emission behaviour.  The events
only ever target the callerId session's socket. -/
theorem c3_accept_behavior (s : SrvState) (u appt cid : String) :
    (s.activeCalls.get cid = none → (acceptCall s u appt cid).1 = s) ∧
    (∀ cd, s.activeCalls.get cid = some cd →
      (acceptCall s u appt cid).1 =
        { s with activeCalls :=
            ((s.activeCalls.set cid { cd with status := "accepted" }).set u
              { cd with status := "accepted" }) }) ∧
    (∀ cs, s.activeUsers.get cid = some cs →
      (acceptCall s u appt cid).2 =
        [Out.emit (Target.sock cs.socketId) "call-accepted"
           [("appointmentId", appt), ("recipientId", u)],
         Out.emit (Target.sock cs.socketId) "start-webrtc-call"
           [("appointmentId", appt)]]) ∧
    (s.activeUsers.get cid = none → (acceptCall s u appt cid).2 = []) := by
  refine ⟨?_, ?_, ?_, ?_⟩
  · intro h
    rw [acceptCall_fst, h]
  · intro cd h
    rw [acceptCall_fst, h]
  · intro cs h
    simp [acceptCall, h]
  · intro h
    simp [acceptCall, h]

theorem c3_accept_behavior_witness :
    (acceptCall c3State "bob" "appt1" "alice").1 = c3State ∧
    (acceptCall c3State "bob" "appt1" "alice").2 =
      [Out.emit (Target.sock "sa") "call-accepted"
         [("appointmentId", "appt1"), ("recipientId", "bob")],
       Out.emit (Target.sock "sa") "start-webrtc-call" [("appointmentId", "appt1")]] :=
  ⟨(c3_accept_behavior c3State "bob" "appt1" "alice").1 rfl,
   (c3_accept_behavior c3State "bob" "appt1" "alice").2.2.1 ⟨"sa", "Alice", "online"⟩ rfl⟩

/-- C4: when user `a` disconnects while holding a Call Registry entry whose
counterpart is `b`, both entries are removed, every other user's entry is
untouched, and — as part of the disconnect handler itself, with no end-call
event from `b` — a call-ended event carrying the disconnect reason is emitted
to `b` when `b` has an active session (followed by the user-offline
broadcast), and no call-ended emission happens when `b` has none. -/
theorem c4_disconnect_ends_call (s : SrvState) (a : String) (cd : CallData)
    (h : s.activeCalls.get a = some cd) :
    ((disconnectHandler s a).1.activeCalls.get a = none) ∧
    ((disconnectHandler s a).1.activeCalls.get (counterpart a cd) = none) ∧
    (∀ u, ¬ u = a → ¬ u = counterpart a cd →
      (disconnectHandler s a).1.activeCalls.get u = s.activeCalls.get u) ∧
    (∀ bs, ¬ counterpart a cd = a → s.activeUsers.get (counterpart a cd) = some bs →
      (disconnectHandler s a).2 =
        [Out.emit (Target.sock bs.socketId) "call-ended"
           [("appointmentId", cd.appointmentId), ("reason", "User disconnected")],
         Out.emit Target.broadcastOthers "user-offline" [("userId", a)]]) ∧
    (s.activeUsers.get (counterpart a cd) = none →
      (disconnectHandler s a).2 =
        [Out.emit Target.broadcastOthers "user-offline" [("userId", a)]]) := by
  have hst := disconnectHandler_fst s a
  rw [h] at hst
  refine ⟨?_, ?_, ?_, ?_, ?_⟩
  · rw [hst]
    simp [SMap.get_del2]
  · rw [hst]
    simp [SMap.get_del2]
  · intro u h1 h2
    rw [hst]
    simp [SMap.get_del2, h1, h2]
  · intro bs hne hb
    have hdel : (s.activeUsers.del a).get (counterpart a cd) = some bs := by
      rw [SMap.get_del, if_neg hne]
      exact hb
    unfold counterpart at hdel
    simp [disconnectHandler, h, hdel]
  · intro hb
    have hdel : (s.activeUsers.del a).get (counterpart a cd) = none := by
      rw [SMap.get_del]
      by_cases hc : counterpart a cd = a
      · rw [if_pos hc]
      · rw [if_neg hc]
        exact hb
    unfold counterpart at hdel
    simp [disconnectHandler, h, hdel]

def c4CallData : CallData := ⟨"appt1", "alice", "bob", "calling", "sa", "sb"⟩

def c4State : SrvState :=
  ⟨(SMap.empty.set "alice" ⟨"sa", "Alice", "online"⟩).set "bob" ⟨"sb", "Bob", "online"⟩,
   (SMap.empty.set "alice" c4CallData).set "bob" c4CallData⟩

theorem c4_disconnect_ends_call_witness :
    ((disconnectHandler c4State "alice").1.activeCalls.get "alice" = none) ∧
    ((disconnectHandler c4State "alice").1.activeCalls.get "bob" = none) ∧
    ((disconnectHandler c4State "alice").2 =
      [Out.emit (Target.sock "sb") "call-ended"
         [("appointmentId", "appt1"), ("reason", "User disconnected")],
       Out.emit Target.broadcastOthers "user-offline" [("userId", "alice")]]) :=
  ⟨(c4_disconnect_ends_call c4State "alice" c4CallData rfl).1,
   (c4_disconnect_ends_call c4State "alice" c4CallData rfl).2.1,
   (c4_disconnect_ends_call c4State "alice" c4CallData rfl).2.2.2.1
     ⟨"sb", "Bob", "online"⟩ (by decide) rfl⟩

/-- C10: an end-call event from a user with no Call Registry entry is a
complete silent no-op — the state (registry included) is unchanged and no
event at all is emitted, neither to a counterpart nor to the appointment
signaling room nor to the requester. -/
theorem c10_end_call_noop (s : SrvState) (u appt : String)
    (h : s.activeCalls.get u = none) :
    endCallHandler s u appt = (s, []) := by
  unfold endCallHandler
  rw [h]

theorem c10_end_call_noop_witness :
    endCallHandler c3State "alice" "appt9" = (c3State, []) :=
  c10_end_call_noop c3State "alice" "appt9" rfl

/-- The `lastMessage` summary sub-document of a conversation
(Conversation.js lines 9-21, written by handlers.js lines 97-102). -/
structure LastMessage where
  content : String
  sender : String
  timestamp : Nat
  messageType : String
deriving DecidableEq, Repr

/-- A conversation row (Conversation.js lines 3-29): generated id, the two
participants, the last-message summary and the per-participant unread map. -/
structure Conversation where
  id : Nat
  participants : List String
  lastMessage : Option LastMessage
  unreadCount : SMap Nat
deriving DecidableEq, Repr

/-- The persistent store visible to the message router: the conversation
collection and the message collection, each with its id counter. -/
structure ChatDB where
  convs : List Conversation
  nextConvId : Nat
  messages : List Message
  nextMsgId : Nat
deriving DecidableEq, Repr

/-- The Mongo query `participants: { $all: [u1, u2], $size: 2 }` used by
`Conversation.findOrCreate` (Conversation.js lines 36-38). -/
def convMatches (u1 u2 : String) (c : Conversation) : Bool :=
  (decide (u1 ∈ c.participants) && decide (u2 ∈ c.participants)) &&
    (c.participants.length == 2)

/-- `Conversation.findOrCreate` (Conversation.js lines 35-52): look up the
conversation for the pair, create it with zeroed unread counters when absent. -/
def findOrCreate (db : ChatDB) (u1 u2 : String) : Conversation × ChatDB :=
  match db.convs.find? (convMatches u1 u2) with
  | some conversation => (conversation, db)
  | none =>
    let conversation : Conversation :=
      ⟨db.nextConvId, [u1, u2], none, (SMap.empty.set u1 0).set u2 0⟩
    (conversation,
     { db with convs := db.convs ++ [conversation], nextConvId := db.nextConvId + 1 })

/-- `conversation.save()` for an already-persisted row: replace the stored row
with the same id. -/
def saveConversation (db : ChatDB) (c : Conversation) : ChatDB :=
  { db with convs := db.convs.map (fun c0 => if c0.id = c.id then c else c0) }

/-- The caller-supplied payload of a send-message event
(handlers.js line 74, with the source's defaults). -/
structure MsgPayload where
  recipientId : String
  content : String
  messageType : String := "text"
  fileUrl : String := ""
  fileName : String := ""
  fileSize : Nat := 0
deriving DecidableEq, Repr

/-- The conversation updates the send-message handler performs after
persisting the message (handlers.js lines 96-106): replace the last-message
summary (placeholder preview for non-text types) and increment the
recipient's unread counter by one. -/
def bumpConversation (c : Conversation) (senderId : String) (p : MsgPayload)
    (now : Nat) : Conversation :=
  { c with
    lastMessage := some
      ⟨(if p.messageType = "text" then p.content else "Sent a " ++ p.messageType),
       senderId, now, p.messageType⟩,
    unreadCount := c.unreadCount.set p.recipientId
      (((c.unreadCount.get p.recipientId).getD 0) + 1) }

/-- The send-message handler (handlers.js lines 72-153).  `senderId` is the
authenticated socket's user id, `p` the caller-supplied payload, `now` the
server clock used for the timestamp stamps.  `notifCreateFails` injects the
failure mode in which the external `createNotification` collaborator throws
after the message has been persisted and emitted: the handler-level catch
then logs and emits a generic error event to the sender
(handlers.js lines 149-152), skipping the notification outputs. -/
def sendMessage (db : ChatDB) (activeUsers : SMap UserEntry) (senderId : String)
    (p : MsgPayload) (now : Nat) (notifCreateFails : Bool) : ChatDB × List Out :=
  let fc := findOrCreate db senderId p.recipientId
  let conversation := fc.1
  let db1 := fc.2
  let message : Message :=
    ⟨db1.nextMsgId, conversation.id, senderId, p.recipientId, p.content,
     p.messageType, p.fileUrl, p.fileName, p.fileSize, now⟩
  let db2 := { db1 with messages := db1.messages ++ [message],
                        nextMsgId := db1.nextMsgId + 1 }
  let db3 := saveConversation db2 (bumpConversation conversation senderId p now)
  let deliveries :=
    [Out.emitMsg (Target.room ("conversation-" ++ toString conversation.id))
       "new-message" message,
     Out.emitMsg (Target.room ("user-" ++ p.recipientId)) "new-message" message]
  let rt :=
    match activeUsers.get p.recipientId with
    | some recipientSocket =>
      [Out.emit (Target.sock recipientSocket.socketId) "new-notification"
         [("type", "new_message"), ("conversationId", toString conversation.id)]]
    | none => []
  (db3,
   deliveries ++
     (if notifCreateFails then
        [Out.emit Target.self "error" [("message", "Failed to send message")]]
      else Out.createNotif p.recipientId senderId "new_message" :: rt))

theorem convMatches_comm (u1 u2 : String) (c : Conversation) :
    convMatches u1 u2 c = convMatches u2 u1 c := by
  unfold convMatches
  by_cases h1 : u1 ∈ c.participants <;> by_cases h2 : u2 ∈ c.participants <;>
    simp [h1, h2]

theorem find?_congr {α : Type} (l : List α) (p q : α → Bool) (h : ∀ x, p x = q x) :
    l.find? p = l.find? q := by
  induction l with
  | nil => rfl
  | cons e t ih =>
    by_cases he : p e = true
    · rw [List.find?_cons_of_pos _ he, List.find?_cons_of_pos _ (by rw [← h e]; exact he)]
    · rw [List.find?_cons_of_neg _ he, List.find?_cons_of_neg _ (by rw [← h e]; exact he),
        ih]

theorem find?_append_none {α : Type} (l1 l2 : List α) (p : α → Bool)
    (h : l1.find? p = none) : (l1 ++ l2).find? p = l2.find? p := by
  rw [List.find?_append, h, Option.none_or]

theorem find?_map_replace (l : List Conversation) (p : Conversation → Bool)
    (c0 c1 : Conversation) (i : Nat) (hi : i = c0.id)
    (h0 : l.find? p = some c0) (h1 : p c1 = true) :
    (l.map fun e => if e.id = i then c1 else e).find? p = some c1 := by
  induction l with
  | nil => exact Option.noConfusion h0
  | cons e t ih =>
    rw [List.map_cons]
    by_cases he : p e = true
    · rw [List.find?_cons_of_pos _ he] at h0
      have hec : e = c0 := Option.some.inj h0
      rw [if_pos (by rw [hec, hi])]
      exact List.find?_cons_of_pos _ h1
    · rw [List.find?_cons_of_neg _ he] at h0
      by_cases hid : e.id = i
      · rw [if_pos hid]
        exact List.find?_cons_of_pos _ h1
      · rw [if_neg hid, List.find?_cons_of_neg _ he]
        exact ih h0

theorem find?_map_replace_of_none (l : List Conversation) (p : Conversation → Bool)
    (c1 : Conversation) (i : Nat) (h0 : l.find? p = none) :
    (l.map fun e => if e.id = i then c1 else e).find? p = none ∨
    (l.map fun e => if e.id = i then c1 else e).find? p = some c1 := by
  induction l with
  | nil => exact Or.inl rfl
  | cons e t ih =>
    have he : ¬ p e = true := by
      intro hp
      rw [List.find?_cons_of_pos _ hp] at h0
      exact Option.noConfusion h0
    rw [List.find?_cons_of_neg _ he] at h0
    rw [List.map_cons]
    by_cases hid : e.id = i
    · rw [if_pos hid]
      by_cases hc1 : p c1 = true
      · exact Or.inr (List.find?_cons_of_pos _ hc1)
      · rcases ih h0 with hn | hs
        · exact Or.inl (by rw [List.find?_cons_of_neg _ hc1]; exact hn)
        · exact Or.inr (by rw [List.find?_cons_of_neg _ hc1]; exact hs)
    · rw [if_neg hid, List.find?_cons_of_neg _ he]
      exact ih h0

theorem find?_map_replace_append (l : List Conversation) (p : Conversation → Bool)
    (c0 c1 : Conversation) (i : Nat) (hi : i = c0.id)
    (h0 : l.find? p = none) (h1 : p c1 = true) :
    ((l ++ [c0]).map fun e => if e.id = i then c1 else e).find? p = some c1 := by
  rw [List.map_append, List.find?_append]
  rcases find?_map_replace_of_none l p c1 i h0 with hn | hs
  · rw [hn, Option.none_or, List.map_cons, List.map_nil, if_pos hi.symm]
    exact List.find?_cons_of_pos _ h1
  · rw [hs]
    rfl

theorem findOrCreate_of_find (db : ChatDB) (u1 u2 : String) (c : Conversation)
    (h : db.convs.find? (convMatches u1 u2) = some c) :
    findOrCreate db u1 u2 = (c, db) := by
  unfold findOrCreate
  rw [h]

theorem findOrCreate_of_none (db : ChatDB) (u1 u2 : String)
    (h : db.convs.find? (convMatches u1 u2) = none) :
    findOrCreate db u1 u2 =
      (⟨db.nextConvId, [u1, u2], none, (SMap.empty.set u1 0).set u2 0⟩,
       { db with
          convs := db.convs ++
            [⟨db.nextConvId, [u1, u2], none, (SMap.empty.set u1 0).set u2 0⟩],
          nextConvId := db.nextConvId + 1 }) := by
  unfold findOrCreate
  rw [h]

theorem sendMessage_fst_convs_eq (db : ChatDB) (users : SMap UserEntry)
    (senderId : String) (p : MsgPayload) (now : Nat) (nf : Bool) :
    (sendMessage db users senderId p now nf).1.convs =
      (findOrCreate db senderId p.recipientId).2.convs.map
        (fun c0 =>
          if c0.id =
              (bumpConversation (findOrCreate db senderId p.recipientId).1 senderId p
                now).id
          then bumpConversation (findOrCreate db senderId p.recipientId).1 senderId p now
          else c0) := rfl

theorem sendMessage_fst_convs (db : ChatDB) (users : SMap UserEntry)
    (senderId : String) (p : MsgPayload) (now : Nat) (nf : Bool) :
    (sendMessage db users senderId p now nf).1.convs.find?
        (convMatches senderId p.recipientId) =
      some (bumpConversation (findOrCreate db senderId p.recipientId).1 senderId p now) := by
  rw [sendMessage_fst_convs_eq]
  cases h : db.convs.find? (convMatches senderId p.recipientId) with
  | some c =>
    simp only [findOrCreate_of_find db senderId p.recipientId c h]
    have hc0 : convMatches senderId p.recipientId c = true := List.find?_some h
    have hpc : convMatches senderId p.recipientId
        (bumpConversation c senderId p now) = true := hc0
    exact find?_map_replace db.convs _ c (bumpConversation c senderId p now) _ rfl h hpc
  | none =>
    simp only [findOrCreate_of_none db senderId p.recipientId h]
    refine find?_map_replace_append db.convs _ _ _ _ rfl h ?_
    simp [convMatches, bumpConversation]

theorem findOrCreate_after_send (db : ChatDB) (users : SMap UserEntry)
    (senderId : String) (p : MsgPayload) (now : Nat) (nf : Bool) :
    findOrCreate (sendMessage db users senderId p now nf).1 senderId p.recipientId =
      (bumpConversation (findOrCreate db senderId p.recipientId).1 senderId p now,
       (sendMessage db users senderId p now nf).1) :=
  findOrCreate_of_find _ _ _ _ (sendMessage_fst_convs db users senderId p now nf)

/-- The unread counter stored for `who` on the conversation resolved for the
pair (u1, u2). -/
def unreadIn (db : ChatDB) (u1 u2 who : String) : Option Nat :=
  ((findOrCreate db u1 u2).1).unreadCount.get who

theorem unread_after_one_send (db : ChatDB) (users : SMap UserEntry)
    (a b : String) (p : MsgPayload) (now : Nat) (nf : Bool)
    (hab : ¬ a = b) (hp : p.recipientId = b) :
    ((unreadIn (sendMessage db users a p now nf).1 a b b).getD 0 =
      (unreadIn db a b b).getD 0 + 1) ∧
    (unreadIn (sendMessage db users a p now nf).1 a b a = unreadIn db a b a) := by
  subst hp
  unfold unreadIn
  rw [findOrCreate_after_send db users a p now nf]
  constructor
  · simp [bumpConversation, SMap.get_set]
  · simp [bumpConversation, SMap.get_set, hab]

/-- C5: a successful send from a to b increments b's unread counter on the
resolved conversation by exactly one and leaves a's counter untouched; a
second send increments b's counter again (the counter is additive, not set to
a fixed value). -/
theorem c5_unread_counter_additive (db : ChatDB) (users : SMap UserEntry)
    (a b : String) (p1 p2 : MsgPayload) (now1 now2 : Nat) (nf1 nf2 : Bool)
    (hab : ¬ a = b) (hp1 : p1.recipientId = b) (hp2 : p2.recipientId = b) :
    ((unreadIn (sendMessage db users a p1 now1 nf1).1 a b b).getD 0 =
      (unreadIn db a b b).getD 0 + 1) ∧
    (unreadIn (sendMessage db users a p1 now1 nf1).1 a b a = unreadIn db a b a) ∧
    ((unreadIn
        (sendMessage (sendMessage db users a p1 now1 nf1).1 users a p2 now2 nf2).1
        a b b).getD 0 = (unreadIn db a b b).getD 0 + 2) ∧
    (unreadIn
        (sendMessage (sendMessage db users a p1 now1 nf1).1 users a p2 now2 nf2).1
        a b a = unreadIn db a b a) := by
  obtain ⟨k1, k2⟩ := unread_after_one_send db users a b p1 now1 nf1 hab hp1
  obtain ⟨k3, k4⟩ :=
    unread_after_one_send (sendMessage db users a p1 now1 nf1).1 users a b p2 now2 nf2
      hab hp2
  refine ⟨k1, k2, ?_, ?_⟩
  · rw [k3, k1]
  · rw [k4, k2]

def emptyChatDB : ChatDB := ⟨[], 0, [], 0⟩

def c5Send1 : ChatDB :=
  (sendMessage emptyChatDB SMap.empty "alice" ⟨"bob", "hi", "text", "", "", 0⟩ 5 false).1

def c5Send2 : ChatDB :=
  (sendMessage c5Send1 SMap.empty "alice" ⟨"bob", "again", "text", "", "", 0⟩ 6 false).1

theorem c5_unread_counter_additive_witness :
    ((unreadIn c5Send1 "alice" "bob" "bob").getD 0 =
      (unreadIn emptyChatDB "alice" "bob" "bob").getD 0 + 1) ∧
    (unreadIn c5Send1 "alice" "bob" "alice" = unreadIn emptyChatDB "alice" "bob" "alice") ∧
    ((unreadIn c5Send2 "alice" "bob" "bob").getD 0 =
      (unreadIn emptyChatDB "alice" "bob" "bob").getD 0 + 2) ∧
    (unreadIn c5Send2 "alice" "bob" "alice" = unreadIn emptyChatDB "alice" "bob" "alice") :=
  c5_unread_counter_additive emptyChatDB SMap.empty "alice" "bob"
    ⟨"bob", "hi", "text", "", "", 0⟩ ⟨"bob", "again", "text", "", "", 0⟩ 5 6 false false
    (by decide) rfl rfl

/-- C6: resolving the conversation for (u1, u2) yields the conversation with
the same id as resolving for (u2, u1), and once one call has run, resolving
again — in either order — returns exactly the same conversation and leaves the
store unchanged (at most one conversation per unordered pair). -/
theorem c6_conversation_unordered_pair (db : ChatDB) (u1 u2 : String) :
    ((findOrCreate db u1 u2).1.id = (findOrCreate db u2 u1).1.id) ∧
    (findOrCreate (findOrCreate db u1 u2).2 u2 u1 =
      ((findOrCreate db u1 u2).1, (findOrCreate db u1 u2).2)) ∧
    (findOrCreate (findOrCreate db u1 u2).2 u1 u2 =
      ((findOrCreate db u1 u2).1, (findOrCreate db u1 u2).2)) := by
  have hcongr : db.convs.find? (convMatches u2 u1) = db.convs.find? (convMatches u1 u2) :=
    find?_congr _ _ _ (fun c => convMatches_comm u2 u1 c)
  cases h : db.convs.find? (convMatches u1 u2) with
  | some c =>
    have h2 : db.convs.find? (convMatches u2 u1) = some c := by rw [hcongr, h]
    simp only [findOrCreate_of_find db u1 u2 c h, findOrCreate_of_find db u2 u1 c h2]
    exact ⟨trivial, trivial, trivial⟩
  | none =>
    have h2 : db.convs.find? (convMatches u2 u1) = none := by rw [hcongr, h]
    simp only [findOrCreate_of_none db u1 u2 h, findOrCreate_of_none db u2 u1 h2]
    refine ⟨trivial, ?_, ?_⟩
    · apply findOrCreate_of_find
      rw [show ({ db with
          convs := db.convs ++
            [⟨db.nextConvId, [u1, u2], none, (SMap.empty.set u1 0).set u2 0⟩],
          nextConvId := db.nextConvId + 1 } : ChatDB).convs = db.convs ++
            [⟨db.nextConvId, [u1, u2], none, (SMap.empty.set u1 0).set u2 0⟩] from rfl]
      rw [find?_append_none db.convs _ _ h2]
      apply List.find?_cons_of_pos
      simp [convMatches]
    · apply findOrCreate_of_find
      rw [show ({ db with
          convs := db.convs ++
            [⟨db.nextConvId, [u1, u2], none, (SMap.empty.set u1 0).set u2 0⟩],
          nextConvId := db.nextConvId + 1 } : ChatDB).convs = db.convs ++
            [⟨db.nextConvId, [u1, u2], none, (SMap.empty.set u1 0).set u2 0⟩] from rfl]
      rw [find?_append_none db.convs _ _ h]
      apply List.find?_cons_of_pos
      simp [convMatches]

theorem findOrCreate_messages (db : ChatDB) (u1 u2 : String) :
    (findOrCreate db u1 u2).2.messages = db.messages := by
  unfold findOrCreate
  cases db.convs.find? (convMatches u1 u2) <;> rfl

theorem sendMessage_fst_messages (db : ChatDB) (users : SMap UserEntry)
    (senderId : String) (p : MsgPayload) (now : Nat) (nf : Bool) :
    (sendMessage db users senderId p now nf).1.messages =
      db.messages ++
        [⟨(findOrCreate db senderId p.recipientId).2.nextMsgId,
          (findOrCreate db senderId p.recipientId).1.id, senderId, p.recipientId,
          p.content, p.messageType, p.fileUrl, p.fileName, p.fileSize, now⟩] := by
  have h1 : (sendMessage db users senderId p now nf).1.messages =
      (findOrCreate db senderId p.recipientId).2.messages ++
        [⟨(findOrCreate db senderId p.recipientId).2.nextMsgId,
          (findOrCreate db senderId p.recipientId).1.id, senderId, p.recipientId,
          p.content, p.messageType, p.fileUrl, p.fileName, p.fileSize, now⟩] := rfl
  rw [h1, findOrCreate_messages]

/-- C7 (amended): every send persists exactly one message; its sender is the
authenticated socket's user id and its timestamp the server clock — neither
can be influenced by the payload — but its recipient is taken verbatim from
the caller-supplied payload field `recipientId` (and its content from
`content`). -/
theorem c7_message_stamps (db : ChatDB) (users : SMap UserEntry) (senderId : String)
    (p : MsgPayload) (now : Nat) (nf : Bool) :
    ∃ m : Message,
      (sendMessage db users senderId p now nf).1.messages = db.messages ++ [m] ∧
      m.sender = senderId ∧ m.createdAt = now ∧
      m.recipient = p.recipientId ∧ m.content = p.content :=
  ⟨⟨(findOrCreate db senderId p.recipientId).2.nextMsgId,
    (findOrCreate db senderId p.recipientId).1.id, senderId, p.recipientId,
    p.content, p.messageType, p.fileUrl, p.fileName, p.fileSize, now⟩,
   sendMessage_fst_messages db users senderId p now nf, rfl, rfl, rfl, rfl⟩

/-- C7 counterexample: the claim as stated fails on the code — the stored
recipient is not server-determined: two send-message payloads that differ only
in `recipientId` persist messages with different recipients, so a payload
field does influence the stored recipient identity. -/
theorem c7_counterexample :
    ¬ (∀ (db : ChatDB) (users : SMap UserEntry) (senderId : String)
         (p1 p2 : MsgPayload) (now : Nat) (nf : Bool),
        (sendMessage db users senderId p1 now nf).1.messages.map Message.recipient =
          (sendMessage db users senderId p2 now nf).1.messages.map Message.recipient) := by
  intro h
  have := h emptyChatDB SMap.empty "alice" ⟨"bob", "hi", "text", "", "", 0⟩
    ⟨"carol", "hi", "text", "", "", 0⟩ 0 false
  exact absurd this (by decide)

/-- C8 counterexample: the claim as stated fails on the code — when the
notification step throws after the message was persisted and emitted, the
handler-level catch does send a generic error event to the sender. -/
theorem c8_counterexample :
    ¬ (∀ (db : ChatDB) (users : SMap UserEntry) (senderId : String) (p : MsgPayload)
         (now : Nat),
        ¬ Out.emit Target.self "error" [("message", "Failed to send message")] ∈
            (sendMessage db users senderId p now true).2) := by
  intro h
  exact h emptyChatDB SMap.empty "alice" ⟨"bob", "hi", "text", "", "", 0⟩ 0 (by decide)

/-- C8 (amended): a notification-creation failure after the message was
persisted and emitted leaves the stored state exactly as in the successful
run — the persisted message and the two already-emitted deliveries are not
retracted — but, contrary to the claim, a generic error event is additionally
emitted to the sender. -/
theorem c8_notification_failure (db : ChatDB) (users : SMap UserEntry)
    (senderId : String) (p : MsgPayload) (now : Nat) :
    (sendMessage db users senderId p now true).1 =
      (sendMessage db users senderId p now false).1 ∧
    ∃ m : Message,
      (sendMessage db users senderId p now true).1.messages = db.messages ++ [m] ∧
      (sendMessage db users senderId p now true).2 =
        [Out.emitMsg (Target.room ("conversation-" ++ toString m.conversation))
           "new-message" m,
         Out.emitMsg (Target.room ("user-" ++ p.recipientId)) "new-message" m,
         Out.emit Target.self "error" [("message", "Failed to send message")]] := by
  refine ⟨rfl, ⟨(findOrCreate db senderId p.recipientId).2.nextMsgId,
    (findOrCreate db senderId p.recipientId).1.id, senderId, p.recipientId,
    p.content, p.messageType, p.fileUrl, p.fileName, p.fileSize, now⟩,
    sendMessage_fst_messages db users senderId p now true, rfl⟩

/-- The user row loaded by the authentication middleware. -/
structure AuthedUser where
  id : String
  profile : String
deriving DecidableEq, Repr

/-- The socket authentication middleware (handlers.js lines 13-33).
`token` is `socket.handshake.auth.token`; `verify` models `jwt.verify`
(`none` = the library threw, i.e. invalid/expired/malformed credential,
caught by the surrounding try/catch); `findUser` models `User.findById`
(`none` = no such user).  The result is the argument passed to `next`:
either the admitted user or the rejection error message. -/
def authMiddleware (token : Option String) (verify : String → Option String)
    (findUser : String → Option AuthedUser) : Except String AuthedUser :=
  match token with
  | none => Except.error "Authentication error"
  | some t =>
    match verify t with
    | none => Except.error "Authentication error"
    | some userId =>
      match findUser userId with
      | none => Except.error "User not found"
      | some user => Except.ok user

/-- C9 counterexample: the claim as stated fails on the code — a credential
that verifies but resolves to a nonexistent user is rejected with the distinct
message "User not found", not the generic authentication error. -/
theorem c9_counterexample :
    ¬ (∀ (token : Option String) (verify : String → Option String)
         (findUser : String → Option AuthedUser) (e : String),
        authMiddleware token verify findUser = Except.error e →
          e = "Authentication error") := by
  intro h
  have := h (some "tok") (fun _ => some "u1") (fun _ => none) "User not found" rfl
  exact absurd this (by decide)

/-- C9 (amended): a missing credential and an invalid/expired/malformed
credential are both rejected with the same generic "Authentication error";
but a credential resolving to a nonexistent user is rejected with the distinct
"User not found" error, so that case is distinguishable by the connecting
party; a resolved existing user is admitted. -/
theorem c9_auth_rejections (token : Option String) (verify : String → Option String)
    (findUser : String → Option AuthedUser) :
    (token = none →
      authMiddleware token verify findUser = Except.error "Authentication error") ∧
    (∀ t, token = some t → verify t = none →
      authMiddleware token verify findUser = Except.error "Authentication error") ∧
    (∀ t uid, token = some t → verify t = some uid → findUser uid = none →
      authMiddleware token verify findUser = Except.error "User not found") ∧
    (∀ t uid user, token = some t → verify t = some uid → findUser uid = some user →
      authMiddleware token verify findUser = Except.ok user) := by
  refine ⟨?_, ?_, ?_, ?_⟩
  · intro h
    simp [authMiddleware, h]
  · intro t h hv
    simp [authMiddleware, h, hv]
  · intro t uid h hv hf
    simp [authMiddleware, h, hv, hf]
  · intro t uid user h hv hf
    simp [authMiddleware, h, hv, hf]

theorem c9_auth_rejections_witness :
    authMiddleware none (fun _ => none) (fun _ => none) =
      Except.error "Authentication error" :=
  (c9_auth_rejections none (fun _ => none) (fun _ => none)).1 rfl
